import Mathlib

/-!
Verification development for `Code/spark_etl.py` (Cardiologist-XGB).

The script cleans, normalizes and splits a heart-health survey dataset with
PySpark.  We give a shallow embedding of its row-level transformations
(`F.when` chains, dictionary lookups via `create_map`/`coalesce`, integer
casts, `F.greatest`), of Spark ML's `MinMaxScaler` rescaling formula, of the
stratified split (`sampleBy` followed by a `left_anti` join on `row_id`), and
of the schema-level control flow of `main` (eager column resolution, the
explicit schema checks, and which artifacts are written with which columns).

Cell values of a Spark column are modelled by `Value`: a SQL NULL, an
integer, a rational (standing in for doubles), or a string.  Spark's implicit
numeric/string coercions inside `when`/`otherwise` branches are not modelled:
a literal `F.lit(1)` is embedded as the integer value 1.
-/

namespace SparkETL

/-- A cell value of a dataframe column: NULL, integer, double (as `Rat`),
or string. -/
inductive Value where
  | null : Value
  | int (n : Int) : Value
  | num (q : Rat) : Value
  | str (s : String) : Value
deriving DecidableEq, Repr

/-- Does list `p` occur at the front of list `l`?  Helper for the string
predicates below (kept as plain recursion so the kernel can evaluate it). -/
def beginsL (p l : List Char) : Bool :=
  match p, l with
  | [], _ => true
  | _ :: _, [] => false
  | a :: ps, b :: cs => a == b && beginsL ps cs

/-- Does list `p` occur as a contiguous sublist of `l`? -/
def hasSubL (p : List Char) : List Char → Bool
  | [] => beginsL p []
  | c :: cs => beginsL p (c :: cs) || hasSubL p cs

/-- `F.col(c) == lit(s)`: equality of a column value with a string literal.
Non-string values never equal a string literal of this pipeline. -/
def Value.eqS (v : Value) (s : String) : Bool :=
  v == Value.str s

/-- `Column.contains(pat)`: substring test; false on non-string values. -/
def Value.containsS (v : Value) (pat : String) : Bool :=
  match v with
  | Value.str s => hasSubL pat.toList s.toList
  | _ => false

/-- `Column.startswith(pat)`: leading-substring test; false on non-string
values. -/
def Value.startsS (v : Value) (pat : String) : Bool :=
  match v with
  | Value.str s => beginsL pat.toList s.toList
  | _ => false

/-- Parse a decimal integer (optional leading minus), the whole string.
Returns `none` on any non-digit content. -/
def digitsToNat : List Char → Option Nat
  | [] => none
  | cs =>
    cs.foldl (fun acc c =>
      match acc with
      | none => none
      | some n => if c.isDigit then some (n * 10 + (c.toNat - 48)) else none)
      (some 0)

/-- Parse an optionally signed decimal integer string. -/
def parseIntS (s : String) : Option Int :=
  match s.toList with
  | '-' :: cs => (digitsToNat cs).map (fun n => -(n : Int))
  | cs => (digitsToNat cs).map (fun n => (n : Int))

/-- `Column.cast("int")` (non-ANSI Spark semantics): integers unchanged,
doubles truncated toward zero, strings parsed as integers with NULL on
parse failure, NULL propagated. -/
def castInt : Value → Value
  | Value.int n => Value.int n
  | Value.num q => Value.int (q.num / (q.den : Int))
  | Value.str s =>
    match parseIntS s with
    | some n => Value.int n
    | none => Value.null
  | Value.null => Value.null

-- ---- mappings (spark_etl.py lines 76-80) ----

def GENERAL_HEALTH : List (String × Int) :=
  [("Poor", 1), ("Fair", 2), ("Good", 3), ("Very good", 4), ("Excellent", 5)]

def REMOVED_TEETH : List (String × Int) :=
  [("None of them", 1), ("1 to 5", 2), ("6 or more, but not all", 3), ("All", 4)]

def AGE_TO_ORD : List (String × Int) :=
  [("18-24", 1), ("25-29", 2), ("30-34", 3), ("35-39", 4), ("40-44", 5),
   ("45-49", 6), ("50-54", 7), ("55-59", 8), ("60-64", 9), ("65-69", 10),
   ("70-74", 11), ("75-79", 12), ("80 or older", 13)]

def SMOKER_MAP : List (String × Int) :=
  [("Never", 1), ("Former", 2), ("Some days", 3), ("Every day", 4)]

/-- `map_by_dict` (line 137): `F.coalesce(F.create_map(...)[F.col(col)],
F.col(col))` — look the value up in the literal map, fall back to the
original value when the key is absent. -/
def map_by_dict (m : List (String × Int)) (v : Value) : Value :=
  match m.find? (fun kv => v == Value.str kv.1) with
  | some kv => Value.int kv.2
  | none => v

/-- The yes/no recode applied to each column of `yes_no_cols` (line 132):
`F.when(col=="Yes", 1).when(col=="No", 0).otherwise(col)`. -/
def yesNoRecode (v : Value) : Value :=
  if v.eqS "Yes" then Value.int 1
  else if v.eqS "No" then Value.int 0
  else v

/-- The Sex recode (line 134): `Female -> 0`, `Male -> 1`, otherwise
unchanged. -/
def sexRecode (v : Value) : Value :=
  if v.eqS "Female" then Value.int 0
  else if v.eqS "Male" then Value.int 1
  else v

/-- GeneralHealth recode (line 140): dictionary map then cast to int. -/
def generalHealthRecode (v : Value) : Value :=
  castInt (map_by_dict GENERAL_HEALTH v)

/-- RemovedTeeth recode (line 141). -/
def removedTeethRecode (v : Value) : Value :=
  castInt (map_by_dict REMOVED_TEETH v)

/-- AgeCategory recode (line 142). -/
def ageCategoryRecode (v : Value) : Value :=
  castInt (map_by_dict AGE_TO_ORD v)

/-- LastCheckupTime simplification (lines 145-150). -/
def lastCheckupTimeClean (v : Value) : Value :=
  if v.containsS "anytime less than 12 months" then Value.str "Within past year"
  else if v.containsS "less than 2 years" then Value.str "Within past 2 years"
  else if v.eqS "5 or more years ago" || v.containsS "less than 5 years" then
    Value.str "Over 2 years ago"
  else v

/-- Tetanus wording simplification (lines 153-159). -/
def tetanusClean (v : Value) : Value :=
  if v.startsS "No, did not receive" then Value.str "No"
  else if v.eqS "Yes, received Tdap" then Value.str "Yes-Tdap"
  else if v.eqS "Yes, received tetanus shot, but not Tdap" then Value.str "Yes-not Tdap"
  else if v.startsS "Yes, received tetanus shot but not sure" then Value.str "Yes-type unknown"
  else v

/-- SmokerStatus simplification (lines 162-168). -/
def smokerStatusClean (v : Value) : Value :=
  if v.eqS "Never smoked" then Value.str "Never"
  else if v.eqS "Former smoker" then Value.str "Former"
  else if v.containsS "some days" then Value.str "Some days"
  else if v.containsS "every day" then Value.str "Every day"
  else v

/-- ECigaretteUsage simplification (lines 169-175). -/
def eCigaretteUsageClean (v : Value) : Value :=
  if v.eqS "Never used e-cigarettes in my entire life" then Value.str "Never"
  else if v.eqS "Not at all (right now)" then Value.str "Former"
  else if v.eqS "Use them some days" then Value.str "Some days"
  else if v.eqS "Use them every day" then Value.str "Every day"
  else v

/-- `SmokerStatus_ord` (line 176): simplified label, mapped through
`SMOKER_MAP`, cast to int. -/
def smokerStatusOrd (raw : Value) : Value :=
  castInt (map_by_dict SMOKER_MAP (smokerStatusClean raw))

/-- `ECigaretteUsage_ord` (line 177). -/
def eCigaretteUsageOrd (raw : Value) : Value :=
  castInt (map_by_dict SMOKER_MAP (eCigaretteUsageClean raw))

/-- `F.greatest` (line 178): greatest of the operands, skipping NULLs;
NULL only when all operands are NULL.  Heterogeneous numeric cases do not
arise in this pipeline (both operands are int-cast columns). -/
def vGreatest : Value → Value → Value
  | Value.null, b => b
  | a, Value.null => a
  | Value.int m, Value.int n => Value.int (max m n)
  | Value.num p, Value.num q => Value.num (max p q)
  | a, _ => a

/-- `SmokerOrECig_ord` (line 178) as a function of the two raw fields. -/
def smokerOrECigOrd (s e : Value) : Value :=
  vGreatest (smokerStatusOrd s) (eCigaretteUsageOrd e)

/-- The Tetanus column as produced by `main`: the yes/no recode loop
(line 132, `TetanusLast10Tdap` is in `yes_no_cols`) runs before the
Tetanus wording step (line 153). -/
def tetanusPipeline (v : Value) : Value :=
  tetanusClean (yesNoRecode v)

end SparkETL

namespace SparkETL

lemma map_by_dict_unmapped (m : List (String × Int)) (v : Value)
    (h : ∀ kv ∈ m, v ≠ Value.str kv.1) : map_by_dict m v = v := by
  unfold map_by_dict
  have hn : m.find? (fun kv => v == Value.str kv.1) = none := by
    rw [List.find?_eq_none]
    intro kv hkv
    simpa using h kv hkv
  rw [hn]

lemma castInt_cases (v : Value) :
    castInt v = Value.null ∨ ∃ n, castInt v = Value.int n := by
  cases v with
  | null => exact Or.inl rfl
  | int n => exact Or.inr ⟨n, rfl⟩
  | num q => exact Or.inr ⟨_, rfl⟩
  | str s =>
    unfold castInt
    cases h : parseIntS s with
    | none => exact Or.inl (by simp [h])
    | some n => exact Or.inr ⟨n, by simp [h]⟩

lemma smokerStatusOrd_cases (v : Value) :
    smokerStatusOrd v = Value.null ∨ ∃ n, smokerStatusOrd v = Value.int n :=
  castInt_cases _

lemma eCigaretteUsageOrd_cases (v : Value) :
    eCigaretteUsageOrd v = Value.null ∨ ∃ n, eCigaretteUsageOrd v = Value.int n :=
  castInt_cases _

lemma vGreatest_null_left (b : Value) : vGreatest Value.null b = b := by
  cases b <;> rfl

lemma vGreatest_null_right (a : Value) : vGreatest a Value.null = a := by
  cases a <;> rfl

end SparkETL

open SparkETL

/-- C7: the binary yes/no recode maps exactly "Yes" to 1 and "No" to 0
(Sex: "Female" to 0, "Male" to 1); any input value other than those exact
strings passes through unchanged, so every output is 1, 0 or the original
value. -/
theorem binary_recode_c7 :
    yesNoRecode (Value.str "Yes") = Value.int 1 ∧
    yesNoRecode (Value.str "No") = Value.int 0 ∧
    sexRecode (Value.str "Female") = Value.int 0 ∧
    sexRecode (Value.str "Male") = Value.int 1 ∧
    (∀ v, v ≠ Value.str "Yes" → v ≠ Value.str "No" → yesNoRecode v = v) ∧
    (∀ v, v ≠ Value.str "Female" → v ≠ Value.str "Male" → sexRecode v = v) ∧
    (∀ v, yesNoRecode v = Value.int 1 ∨ yesNoRecode v = Value.int 0 ∨ yesNoRecode v = v) ∧
    (∀ v, sexRecode v = Value.int 0 ∨ sexRecode v = Value.int 1 ∨ sexRecode v = v) := by
  refine ⟨by decide, by decide, by decide, by decide, ?_, ?_, ?_, ?_⟩ <;> intro v
  · intro h1 h2
    simp [yesNoRecode, Value.eqS, h1, h2]
  · intro h1 h2
    simp [sexRecode, Value.eqS, h1, h2]
  · unfold yesNoRecode
    split
    · exact Or.inl rfl
    · split
      · exact Or.inr (Or.inl rfl)
      · exact Or.inr (Or.inr rfl)
  · unfold sexRecode
    split
    · exact Or.inl rfl
    · split
      · exact Or.inr (Or.inl rfl)
      · exact Or.inr (Or.inr rfl)

/-- C7 witness: a value that is none of the four exact strings passes
through both recodes unchanged. -/
theorem binary_recode_c7_witness :
    yesNoRecode (Value.str "Maybe") = Value.str "Maybe" ∧
    sexRecode (Value.str "Maybe") = Value.str "Maybe" :=
  ⟨binary_recode_c7.2.2.2.2.1 (Value.str "Maybe") (by decide) (by decide),
   binary_recode_c7.2.2.2.2.2.1 (Value.str "Maybe") (by decide) (by decide)⟩

/-- C9: `TetanusLast10Tdap` is in the binary yes/no list, which is recoded
before the Tetanus wording consolidation; so the exact strings "Yes" and
"No" become the integers 1 and 0 (not one of the four canonical Tetanus
labels), and the wording consolidation leaves those integers unchanged. -/
theorem tetanus_yes_no_precedence_c9 :
    tetanusPipeline (Value.str "Yes") = Value.int 1 ∧
    tetanusPipeline (Value.str "No") = Value.int 0 ∧
    tetanusClean (Value.int 1) = Value.int 1 ∧
    tetanusClean (Value.int 0) = Value.int 0 ∧
    tetanusPipeline (Value.str "Yes") ≠ Value.str "No" ∧
    tetanusPipeline (Value.str "Yes") ≠ Value.str "Yes-Tdap" ∧
    tetanusPipeline (Value.str "Yes") ≠ Value.str "Yes-not Tdap" ∧
    tetanusPipeline (Value.str "Yes") ≠ Value.str "Yes-type unknown" ∧
    tetanusPipeline (Value.str "No") ≠ Value.str "No" ∧
    tetanusPipeline (Value.str "No") ≠ Value.str "Yes-Tdap" ∧
    tetanusPipeline (Value.str "No") ≠ Value.str "Yes-not Tdap" ∧
    tetanusPipeline (Value.str "No") ≠ Value.str "Yes-type unknown" := by
  decide

/-- C3 counterexample: the claim says an input value outside the lookup
table is passed through unchanged with no null; but the recode casts the
coalesced column to int (line 140), so the unmapped string "Unknown"
becomes NULL, not "Unknown". -/
theorem ordinal_recode_c3_counterexample :
    generalHealthRecode (Value.str "Unknown") = Value.null ∧
    Value.null ≠ Value.str "Unknown" := by
  decide

/-- C3 (amended): canonical labels map into 1..5 / 1..4 / 1..13; a value
not in the lookup table is passed through the dictionary unchanged but then
cast to int, so the output is the integer cast of the input (NULL for
non-integer strings), never an error. -/
theorem ordinal_recode_amended_c3 :
    (∀ k n, (k, n) ∈ GENERAL_HEALTH →
      generalHealthRecode (Value.str k) = Value.int n ∧ 1 ≤ n ∧ n ≤ 5) ∧
    (∀ k n, (k, n) ∈ REMOVED_TEETH →
      removedTeethRecode (Value.str k) = Value.int n ∧ 1 ≤ n ∧ n ≤ 4) ∧
    (∀ k n, (k, n) ∈ AGE_TO_ORD →
      ageCategoryRecode (Value.str k) = Value.int n ∧ 1 ≤ n ∧ n ≤ 13) ∧
    (∀ v, (∀ kv ∈ GENERAL_HEALTH, v ≠ Value.str kv.1) →
      generalHealthRecode v = castInt v) ∧
    (∀ v, (∀ kv ∈ REMOVED_TEETH, v ≠ Value.str kv.1) →
      removedTeethRecode v = castInt v) ∧
    (∀ v, (∀ kv ∈ AGE_TO_ORD, v ≠ Value.str kv.1) →
      ageCategoryRecode v = castInt v) := by
  refine ⟨?_, ?_, ?_, ?_, ?_, ?_⟩
  · intro k n h
    fin_cases h <;> exact ⟨by decide, by decide, by decide⟩
  · intro k n h
    fin_cases h <;> exact ⟨by decide, by decide, by decide⟩
  · intro k n h
    fin_cases h <;> exact ⟨by decide, by decide, by decide⟩
  · intro v h
    unfold generalHealthRecode
    rw [map_by_dict_unmapped _ _ h]
  · intro v h
    unfold removedTeethRecode
    rw [map_by_dict_unmapped _ _ h]
  · intro v h
    unfold ageCategoryRecode
    rw [map_by_dict_unmapped _ _ h]

/-- C3 amended-claim witness at concrete inputs. -/
theorem ordinal_recode_amended_c3_witness :
    generalHealthRecode (Value.str "Poor") = Value.int 1 ∧
    generalHealthRecode (Value.str "7") = castInt (Value.str "7") :=
  ⟨(ordinal_recode_amended_c3.1 "Poor" 1 (by decide)).1,
   ordinal_recode_amended_c3.2.2.2.1 (Value.str "7") (by decide)⟩

/-- C4: `SmokerOrECig_ord` is `F.greatest` of the two ordinals: the max
when both are defined, the defined one when exactly one is, and NULL
exactly when both are NULL. -/
theorem smoker_or_ecig_greatest_c4 : ∀ s e : Value,
    (∀ m n, smokerStatusOrd s = Value.int m → eCigaretteUsageOrd e = Value.int n →
      smokerOrECigOrd s e = Value.int (max m n)) ∧
    (smokerStatusOrd s = Value.null → smokerOrECigOrd s e = eCigaretteUsageOrd e) ∧
    (eCigaretteUsageOrd e = Value.null → smokerOrECigOrd s e = smokerStatusOrd s) ∧
    (smokerOrECigOrd s e = Value.null ↔
      smokerStatusOrd s = Value.null ∧ eCigaretteUsageOrd e = Value.null) := by
  intro s e
  rcases smokerStatusOrd_cases s with ha | ⟨m0, ha⟩ <;>
    rcases eCigaretteUsageOrd_cases e with hb | ⟨n0, hb⟩ <;>
    refine ⟨?_, ?_, ?_, ?_⟩ <;>
    simp [smokerOrECigOrd, ha, hb, vGreatest]

/-- C4 witness: the spec's own scenario, `SmokerStatus="Never smoked"`,
`ECigaretteUsage="Use them every day"` gives ordinals 1 and 4 and a
combined ordinal of 4. -/
theorem smoker_or_ecig_greatest_c4_witness :
    smokerOrECigOrd (Value.str "Never smoked") (Value.str "Use them every day") =
      Value.int (max 1 4) :=
  (smoker_or_ecig_greatest_c4 (Value.str "Never smoked") (Value.str "Use them every day")).1
    1 4 (by decide) (by decide)

namespace SparkETL

/-- A first-match-wins rule ladder: an ordered list of (predicate,
canonical label) pairs; the first predicate that holds determines the
output, and if none holds the original value is retained. -/
def applyRules : List ((Value → Bool) × String) → Value → Value
  | [], v => v
  | pr :: rest, v => if pr.1 v then Value.str pr.2 else applyRules rest v

/-- The ordered rules of the LastCheckupTime `when` chain (lines 145-150). -/
def checkupRules : List ((Value → Bool) × String) :=
  [(fun v => v.containsS "anytime less than 12 months", "Within past year"),
   (fun v => v.containsS "less than 2 years", "Within past 2 years"),
   (fun v => v.eqS "5 or more years ago" || v.containsS "less than 5 years",
     "Over 2 years ago")]

/-- The ordered rules of the Tetanus `when` chain (lines 153-159). -/
def tetanusRules : List ((Value → Bool) × String) :=
  [(fun v => v.startsS "No, did not receive", "No"),
   (fun v => v.eqS "Yes, received Tdap", "Yes-Tdap"),
   (fun v => v.eqS "Yes, received tetanus shot, but not Tdap", "Yes-not Tdap"),
   (fun v => v.startsS "Yes, received tetanus shot but not sure", "Yes-type unknown")]

/-- The ordered rules of the SmokerStatus `when` chain (lines 162-168). -/
def smokerRules : List ((Value → Bool) × String) :=
  [(fun v => v.eqS "Never smoked", "Never"),
   (fun v => v.eqS "Former smoker", "Former"),
   (fun v => v.containsS "some days", "Some days"),
   (fun v => v.containsS "every day", "Every day")]

/-- The ordered rules of the ECigaretteUsage `when` chain (lines 169-175). -/
def ecigRules : List ((Value → Bool) × String) :=
  [(fun v => v.eqS "Never used e-cigarettes in my entire life", "Never"),
   (fun v => v.eqS "Not at all (right now)", "Former"),
   (fun v => v.eqS "Use them some days", "Some days"),
   (fun v => v.eqS "Use them every day", "Every day")]

end SparkETL

/-- C8: each free-text consolidation is exactly its ordered rule ladder,
and a rule ladder returns the label of the first matching rule
(`List.find?` is first-match, top-down) or the original value when no
rule matches. -/
theorem rule_ladder_c8 :
    (∀ v, lastCheckupTimeClean v = applyRules checkupRules v) ∧
    (∀ v, tetanusClean v = applyRules tetanusRules v) ∧
    (∀ v, smokerStatusClean v = applyRules smokerRules v) ∧
    (∀ v, eCigaretteUsageClean v = applyRules ecigRules v) ∧
    (∀ (rules : List ((Value → Bool) × String)) (v : Value),
      applyRules rules v =
        match rules.find? (fun pr => pr.1 v) with
        | some pr => Value.str pr.2
        | none => v) := by
  refine ⟨fun v => rfl, fun v => rfl, fun v => rfl, fun v => rfl, ?_⟩
  intro rules v
  induction rules with
  | nil => rfl
  | cons pr rest ih =>
    cases h : pr.1 v with
    | true => simp [applyRules, List.find?, h]
    | false => simp [applyRules, List.find?, h, ih]

namespace SparkETL

/-- Column minimum, as computed by the scaler fit over the whole column. -/
def colMin : List Rat → Rat
  | [] => 0
  | x :: xs => xs.foldl min x

/-- Column maximum, as computed by the scaler fit over the whole column. -/
def colMax : List Rat → Rat
  | [] => 0
  | x :: xs => xs.foldl max x

/-- Spark ML `MinMaxScalerModel` rescaling of one value (spark_etl.py
lines 198-200 use the model with its default output range `[lo, hi] =
[0, 1]`): `raw = (x - eMin) / (eMax - eMin)` when the observed range is
nonzero and `raw = 0.5` otherwise, then `raw * (hi - lo) + lo`. -/
def minMaxRescale (eMin eMax lo hi x : Rat) : Rat :=
  (if eMax - eMin ≠ 0 then (x - eMin) / (eMax - eMin) else 1/2) * (hi - lo) + lo

/-- One `*_scaled` column (lines 195-203): every row of the column scaled
with the column's global min and max and the default range `[0, 1]`. -/
def minMaxScaleCol (xs : List Rat) : List Rat :=
  xs.map (fun x => minMaxRescale (colMin xs) (colMax xs) 0 1 x)

lemma foldl_min_le (l : List Rat) (acc : Rat) : l.foldl min acc ≤ acc := by
  induction l generalizing acc with
  | nil => exact le_refl _
  | cons y ys ih => exact le_trans (ih (min acc y)) (min_le_left _ _)

lemma le_foldl_max (l : List Rat) (acc : Rat) : acc ≤ l.foldl max acc := by
  induction l generalizing acc with
  | nil => exact le_refl _
  | cons y ys ih => exact le_trans (le_max_left _ _) (ih (max acc y))

lemma colMin_le_colMax (a : Rat) (l : List Rat) :
    colMin (a :: l) ≤ colMax (a :: l) :=
  le_trans (foldl_min_le l a) (le_foldl_max l a)

end SparkETL

/-- C2 counterexample: the claim says a constant column scales every row
to exactly 0, but Spark's `MinMaxScaler` rescales a zero-range column to
`0.5 * (hi + lo) = 0.5`, not 0: the constant column `[5, 5]` scales to
`[1/2, 1/2]`. -/
theorem minmax_degenerate_c2_counterexample :
    minMaxScaleCol [(5 : Rat), 5] = [1/2, 1/2] ∧
    minMaxScaleCol [(5 : Rat), 5] ≠ [0, 0] := by
  constructor
  · norm_num [minMaxScaleCol, minMaxRescale, colMin, colMax]
  · norm_num [minMaxScaleCol, minMaxRescale, colMin, colMax]

/-- C2 (amended): every row of a scaled column equals
`(x - min) / (max - min)` when `max > min`, and `1/2` (not 0) when the
column is constant (`max = min`); the division is only taken when the
denominator is nonzero. -/
theorem minmax_scale_amended_c2 : ∀ xs : List Rat,
    minMaxScaleCol xs =
      xs.map (fun x => if colMin xs < colMax xs
        then (x - colMin xs) / (colMax xs - colMin xs) else (1 : Rat)/2) := by
  intro xs
  cases xs with
  | nil => rfl
  | cons a l =>
    rcases lt_or_eq_of_le (colMin_le_colMax a l) with hlt | heq
    · have hne : colMax (a :: l) - colMin (a :: l) ≠ 0 :=
        sub_ne_zero.mpr (ne_of_gt hlt)
      refine List.map_congr_left ?_
      intro x _
      simp only [minMaxRescale, if_pos hne, if_pos hlt]
      ring
    · have h0 : colMax (a :: l) - colMin (a :: l) = 0 := by
        rw [← heq]; ring
      refine List.map_congr_left ?_
      intro x _
      simp only [minMaxRescale, h0]
      rw [if_neg (by simp), if_neg (by rw [heq]; exact lt_irrefl _)]
      ring

namespace SparkETL

/-- A dataset row at the granularity the split operates on: the unique
`row_id` added at line 208 (`monotonically_increasing_id`) and the
stratification label `HadHeartAttack`.  The remaining fields play no role
in partition membership. -/
structure Row where
  row_id : Nat
  label : Int
deriving DecidableEq, Repr

/-- The row identifiers of a dataset. -/
def idsOf (rows : List Row) : List Nat :=
  rows.map Row.row_id

/-- `df.stat.sampleBy(...)` (line 213) followed by the `left_anti` join on
`row_id` (line 214): `test` keeps the rows accepted by the per-row seeded
draw, `train` keeps exactly the rows of `df` whose `row_id` does not occur
among the test `row_id`s.  The acceptance predicate is a parameter: every
claim proved about the split holds for any per-row draw.  Returns
`(train, test)`. -/
def stratifiedSplit (accept : Row → Bool) (rows : List Row) :
    List Row × List Row :=
  let test := rows.filter accept
  let train := rows.filter (fun r => decide (r.row_id ∉ idsOf test))
  (train, test)

/-- A concrete deterministic per-row draw standing in for Spark's seeded
sampler: a hash of the seed, the row's label and its `row_id`, compared
with the per-label acceptance fraction (the code builds the fraction map
`{label : test_frac}` uniformly over the observed labels, line 212). -/
def acceptDraw (seed : Nat) (frac : Rat) (r : Row) : Bool :=
  (((seed * 2654435761 + r.row_id * 40503 + r.label.natAbs * 97) % 1000003 : Nat) : Rat)
    < frac * 1000003

/-- The split as `main` performs it: a pure function of the input rows,
the seed and the test fraction. -/
def runSplit (rows : List Row) (seed : Nat) (frac : Rat) :
    List Row × List Row :=
  stratifiedSplit (acceptDraw seed frac) rows

end SparkETL

/-- C1: for any per-row acceptance draw, when row identifiers are unique
the split partitions the identifiers exactly: every identifier of the full
dataset is in `train` or in `test`, never in both, and neither output
duplicates an identifier. -/
theorem split_partition_c1 :
    ∀ (accept : SparkETL.Row → Bool) (rows : List SparkETL.Row),
    (idsOf rows).Nodup →
    (∀ i, i ∈ idsOf rows ↔
      (i ∈ idsOf (stratifiedSplit accept rows).1 ∨
       i ∈ idsOf (stratifiedSplit accept rows).2)) ∧
    (∀ i, ¬(i ∈ idsOf (stratifiedSplit accept rows).1 ∧
            i ∈ idsOf (stratifiedSplit accept rows).2)) ∧
    (idsOf (stratifiedSplit accept rows).1).Nodup ∧
    (idsOf (stratifiedSplit accept rows).2).Nodup := by
  intro accept rows hnd
  have hsubTest : (rows.filter accept).Sublist rows := List.filter_sublist rows
  have hsubTrain :
      (rows.filter (fun r => decide (r.row_id ∉ idsOf (rows.filter accept)))).Sublist rows :=
    List.filter_sublist rows
  refine ⟨?_, ?_, ?_, ?_⟩
  · intro i
    constructor
    · intro hi
      rcases List.mem_map.mp hi with ⟨r, hr, hri⟩
      by_cases ht : i ∈ idsOf (rows.filter accept)
      · exact Or.inr ht
      · refine Or.inl (List.mem_map.mpr ⟨r, ?_, hri⟩)
        refine List.mem_filter.mpr ⟨hr, ?_⟩
        simpa [hri] using ht
    · intro hi
      rcases hi with hi | hi <;> rcases List.mem_map.mp hi with ⟨r, hr, hri⟩
      · exact List.mem_map.mpr ⟨r, (List.mem_filter.mp hr).1, hri⟩
      · exact List.mem_map.mpr ⟨r, (List.mem_filter.mp hr).1, hri⟩
  · intro i ⟨hitr, hite⟩
    rcases List.mem_map.mp hitr with ⟨r, hr, hri⟩
    have := (List.mem_filter.mp hr).2
    rw [decide_eq_true_iff] at this
    exact this (hri ▸ hite)
  · exact hnd.sublist (hsubTrain.map Row.row_id)
  · exact hnd.sublist (hsubTest.map Row.row_id)

/-- C1 witness: a concrete three-row dataset with unique identifiers and a
concrete draw; identifier 2 lands in exactly one side. -/
theorem split_partition_c1_witness :
    ¬(2 ∈ idsOf (stratifiedSplit (fun r => r.row_id == 1)
        [⟨0, 0⟩, ⟨1, 1⟩, ⟨2, 0⟩]).1 ∧
      2 ∈ idsOf (stratifiedSplit (fun r => r.row_id == 1)
        [⟨0, 0⟩, ⟨1, 1⟩, ⟨2, 0⟩]).2) :=
  (split_partition_c1 (fun r => r.row_id == 1) [⟨0, 0⟩, ⟨1, 1⟩, ⟨2, 0⟩]
    (by decide)).2.1 2

/-- C6: the split is a deterministic function of the input rows, the seed
and the test fraction — two runs on identical inputs produce identical
train and test membership. -/
theorem split_deterministic_c6 :
    ∀ (rowsA rowsB : List SparkETL.Row) (seedA seedB : Nat) (fracA fracB : Rat),
    rowsA = rowsB → seedA = seedB → fracA = fracB →
    runSplit rowsA seedA fracA = runSplit rowsB seedB fracB := by
  intro rowsA rowsB seedA seedB fracA fracB hr hs hf
  rw [hr, hs, hf]

/-- C6 witness: two textually separate runs with the same input, seed 25
and fraction 3/10 coincide. -/
theorem split_deterministic_c6_witness :
    runSplit [⟨0, 0⟩, ⟨1, 1⟩] 25 (3 / 10) = runSplit [⟨0, 0⟩, ⟨1, 1⟩] 25 (3 / 10) :=
  split_deterministic_c6 [⟨0, 0⟩, ⟨1, 1⟩] [⟨0, 0⟩, ⟨1, 1⟩] 25 25 (3 / 10) (3 / 10)
    rfl rfl rfl

namespace SparkETL

/-- `yes_no_cols` (lines 127-130). -/
def yes_no_cols : List String :=
  ["HadHeartAttack", "HadAngina", "HadStroke", "HadAsthma", "HadCOPD",
   "HadDepressiveDisorder", "HadKidneyDisease", "HadArthritis",
   "DeafOrHardOfHearing", "BlindOrVisionDifficulty", "DifficultyConcentrating",
   "DifficultyWalking", "DifficultyDressingBathing", "DifficultyErrands",
   "ChestScan", "AlcoholDrinkers", "HIVTesting", "FluVaxLast12",
   "PneumoVaxEver", "TetanusLast10Tdap", "HighRiskLastYear"]

/-- `cnts_cols`, the twelve scaler input columns (lines 186-190). -/
def cnts_cols : List String :=
  ["PhysicalHealthDays", "MentalHealthDays", "SleepHours", "HeightInMeters",
   "WeightInKilograms", "BMI", "GeneralHealth", "RemovedTeeth", "AgeCategory",
   "SmokerStatus_ord", "ECigaretteUsage_ord", "SmokerOrECig_ord"]

/-- One `withColumn` call at the schema level: the name of the (re)defined
column, and the columns its defining expression references.  Spark resolves
the references eagerly and raises an `AnalysisException` naming any
unresolvable column. -/
structure ColStep where
  name : String
  refs : List String
deriving DecidableEq, Repr

/-- `withColumn` keeps the schema unchanged when the column exists (the
value is replaced in place) and appends the new column otherwise. -/
def addCol (cols : List String) (c : String) : List String :=
  if cols.contains c then cols else cols ++ [c]

/-- Run a sequence of `withColumn` steps over a schema.  A step whose
expression references a missing column aborts with an error naming that
column (Spark's eager analysis); otherwise its output column is added. -/
def runSteps : List String → List ColStep → Except String (List String)
  | cols, [] => Except.ok cols
  | cols, s :: rest =>
    match s.refs.find? (fun r => !cols.contains r) with
    | some r => Except.error ("cannot resolve " ++ r)
    | none => runSteps (addCol cols s.name) rest

/-- The normalization `withColumn` sequence of `main` (lines 126-178), in
program order: the yes/no loop, Sex, the three ordinal recodes, the four
free-text consolidations, and the three derived ordinal columns. -/
def normSteps : List ColStep :=
  yes_no_cols.map (fun c => ⟨c, [c]⟩) ++
  [⟨"Sex", ["Sex"]⟩,
   ⟨"GeneralHealth", ["GeneralHealth"]⟩,
   ⟨"RemovedTeeth", ["RemovedTeeth"]⟩,
   ⟨"AgeCategory", ["AgeCategory"]⟩,
   ⟨"LastCheckupTime", ["LastCheckupTime"]⟩,
   ⟨"TetanusLast10Tdap", ["TetanusLast10Tdap"]⟩,
   ⟨"SmokerStatus", ["SmokerStatus"]⟩,
   ⟨"ECigaretteUsage", ["ECigaretteUsage"]⟩,
   ⟨"SmokerStatus_ord", ["SmokerStatus"]⟩,
   ⟨"ECigaretteUsage_ord", ["ECigaretteUsage"]⟩,
   ⟨"SmokerOrECig_ord", ["SmokerStatus_ord", "ECigaretteUsage_ord"]⟩]

/-- The conditional Region derivation (lines 181-183): only when a State
column exists. -/
def regionStep (cols : List String) : List String :=
  if cols.contains "State" then addCol cols "Region" else cols

/-- The explicit scaler-input check (lines 191-193): the first column of
`cnts_cols` missing from the schema aborts the run with the
`ValueError` message of the code. -/
def checkCnts (cols : List String) : Except String Unit :=
  match cnts_cols.find? (fun c => !cols.contains c) with
  | some c =>
    Except.error ("Expected numeric column " ++ c ++ " not found in input schema.")
  | none => Except.ok ()

/-- The assembler, scaler and per-column extraction steps (lines 195-203):
the vector columns `cnts_vec` and `cnts_vec_scaled`, then one `*_scaled`
column per scaler input. -/
def scaledSchema (cols : List String) : List String :=
  cnts_cols.foldl (fun acc c => addCol acc (c ++ "_scaled"))
    (addCol (addCol cols "cnts_vec") "cnts_vec_scaled")

/-- The target-label check (lines 206-207): abort with the code's
`ValueError` message when `HadHeartAttack` is absent. -/
def checkTarget (cols : List String) : Except String Unit :=
  if cols.contains "HadHeartAttack" then Except.ok ()
  else Except.error "Target column 'HadHeartAttack' not found."

/-- The schema produced by `main` up to the split, or the first error:
normalization, Region, the scaler check, the assembled and scaled vector
columns, the twelve `*_scaled` columns, the target-label check
(lines 206-207) and `row_id` (line 208). -/
def pipelineSchema (cols0 : List String) : Except String (List String) :=
  match runSteps cols0 normSteps with
  | Except.error m => Except.error m
  | Except.ok c1 =>
    match checkCnts (regionStep c1) with
    | Except.error m => Except.error m
    | Except.ok _ =>
      match checkTarget (scaledSchema (regionStep c1)) with
      | Except.error m => Except.error m
      | Except.ok _ => Except.ok (addCol (scaledSchema (regionStep c1)) "row_id")

/-- The observable outcome of one run of `main`: the artifacts written
(path and column list), the lines printed, and success or the fatal
error message.  An aborted run writes and prints nothing (the exception
is raised before the write statements, lines 222-232). -/
structure RunResult where
  written : List (String × List String)
  printed : List String
  outcome : Except String Unit
deriving Repr

/-- `df.drop(vec_in, vec_out)` applied before every write (lines 222-230). -/
def dropVecs (cols : List String) : List String :=
  cols.filter (fun c => !(c == "cnts_vec" || c == "cnts_vec_scaled"))

/-- One run of `main` at the schema level.  On success the clean, train and
test artifacts (plus CSV mirrors when requested) are written, each with the
vector columns dropped, and the three output paths are printed (line 232). -/
def runMain (cols0 : List String) (outdir : String) (writeCsv : Bool) : RunResult :=
  match pipelineSchema cols0 with
  | Except.error m => ⟨[], [], Except.error m⟩
  | Except.ok cols =>
    let out := dropVecs cols
    let cleanPath := outdir ++ "/heart_2022_clean.parquet"
    let trainPath := outdir ++ "/train_df0.1.parquet"
    let testPath := outdir ++ "/test_df0.1.parquet"
    let base := [(cleanPath, out), (trainPath, out), (testPath, out)]
    let allWrites :=
      if writeCsv then
        base ++ [(outdir ++ "/heart_2022_clean_csv", out),
                 (outdir ++ "/train_df0.1_csv", out),
                 (outdir ++ "/test_df0.1_csv", out)]
      else base
    ⟨allWrites, [cleanPath, trainPath, testPath], Except.ok ()⟩

/-- The columns the input dataset itself must provide for the scaler and
the target check: the nine raw scaler inputs (the three `*_ord` scaler
columns are derived from `SmokerStatus`/`ECigaretteUsage` during
normalization) and the target label. -/
def requiredInputCols : List String :=
  ["PhysicalHealthDays", "MentalHealthDays", "SleepHours", "HeightInMeters",
   "WeightInKilograms", "BMI", "GeneralHealth", "RemovedTeeth", "AgeCategory",
   "HadHeartAttack"]

/-- Every column name a schema error of the pipeline can cite. -/
def schemaErrorCols : List String :=
  yes_no_cols ++
  ["Sex", "GeneralHealth", "RemovedTeeth", "AgeCategory", "LastCheckupTime",
   "SmokerStatus", "ECigaretteUsage", "SmokerStatus_ord", "ECigaretteUsage_ord"] ++
  cnts_cols ++ ["HadHeartAttack"]

/-- A full raw input schema (the CSV columns the script's header comment
lists that the pipeline touches, plus State). -/
def fullInput : List String :=
  yes_no_cols ++
  ["Sex", "GeneralHealth", "RemovedTeeth", "AgeCategory", "LastCheckupTime",
   "SmokerStatus", "ECigaretteUsage", "PhysicalHealthDays", "MentalHealthDays",
   "SleepHours", "HeightInMeters", "WeightInKilograms", "BMI", "State"]

lemma mem_addCol (cols : List String) (c x : String) :
    x ∈ addCol cols c ↔ x ∈ cols ∨ x = c := by
  unfold addCol
  by_cases h : c ∈ cols
  · rw [if_pos (by simpa using h)]
    constructor
    · exact Or.inl
    · rintro (hx | rfl)
      · exact hx
      · exact h
  · rw [if_neg (by simpa using h)]
    simp

lemma subset_addCol (cols : List String) (c : String) : cols ⊆ addCol cols c :=
  fun _ hx => (mem_addCol _ _ _).mpr (Or.inl hx)

lemma runSteps_ok_mem : ∀ (steps : List ColStep) (cols out : List String),
    runSteps cols steps = Except.ok out →
    ∀ x, x ∈ out ↔ x ∈ cols ∨ x ∈ steps.map ColStep.name := by
  intro steps
  induction steps with
  | nil =>
    intro cols out h x
    cases h
    simp
  | cons s rest ih =>
    intro cols out h x
    rw [runSteps] at h
    split at h
    · exact absurd h (by simp)
    · rw [ih _ _ h x, mem_addCol]
      simp
      tauto

lemma runSteps_error_spec : ∀ (steps : List ColStep) (cols : List String) (m : String),
    runSteps cols steps = Except.error m →
    ∃ r, m = "cannot resolve " ++ r ∧ r ∉ cols ∧
      r ∈ steps.foldr (fun s a => s.refs ++ a) [] := by
  intro steps
  induction steps with
  | nil => intro cols m h; cases h
  | cons s rest ih =>
    intro cols m h
    rw [runSteps] at h
    split at h
    · rename_i r hr
      cases h
      refine ⟨r, rfl, ?_, ?_⟩
      · have := List.find?_some hr
        simpa using this
      · simpa using Or.inl (List.mem_of_find?_eq_some hr)
    · rcases ih _ _ h with ⟨r, hm, hnr, hmem⟩
      refine ⟨r, hm, fun hx => hnr (subset_addCol _ _ hx), ?_⟩
      simpa using Or.inr hmem

lemma runSteps_ok_refs : ∀ (pre : List ColStep) (s : ColStep) (post : List ColStep)
    (cols out : List String),
    runSteps cols (pre ++ s :: post) = Except.ok out →
    ∀ r ∈ s.refs, r ∈ cols ∨ r ∈ pre.map ColStep.name := by
  intro pre
  induction pre with
  | nil =>
    intro s post cols out h r hr
    rw [List.nil_append, runSteps] at h
    split at h
    · exact absurd h (by simp)
    · rename_i hf
      rw [List.find?_eq_none] at hf
      have := hf r hr
      simp at this
      exact Or.inl this
  | cons q pre' ih =>
    intro s post cols out h r hr
    rw [List.cons_append, runSteps] at h
    split at h
    · exact absurd h (by simp)
    · rcases ih s post _ _ h r hr with hx | hx
      · rcases (mem_addCol _ _ _).mp hx with hx | rfl
        · exact Or.inl hx
        · simp
      · simp [hx]

lemma checkCnts_ok_mem (cols : List String) (h : checkCnts cols = Except.ok ()) :
    ∀ c ∈ cnts_cols, c ∈ cols := by
  rw [checkCnts] at h
  split at h
  · exact absurd h (by simp)
  · rename_i hf
    rw [List.find?_eq_none] at hf
    intro c hc
    have := hf c hc
    simpa using this

lemma checkCnts_error_spec (cols : List String) (m : String)
    (h : checkCnts cols = Except.error m) :
    ∃ c, c ∈ cnts_cols ∧ c ∉ cols ∧
      m = "Expected numeric column " ++ c ++ " not found in input schema." := by
  rw [checkCnts] at h
  split at h
  · rename_i c hc
    cases h
    refine ⟨c, List.mem_of_find?_eq_some hc, ?_, rfl⟩
    have := List.find?_some hc
    simpa using this
  · cases h

lemma regionStep_mem_of (cols : List String) (x : String) (h : x ∈ cols) :
    x ∈ regionStep cols := by
  unfold regionStep
  split
  · exact subset_addCol _ _ h
  · exact h

lemma mem_of_regionStep (cols : List String) (x : String)
    (h : x ∈ regionStep cols) : x ∈ cols ∨ x = "Region" := by
  unfold regionStep at h
  split at h
  · exact (mem_addCol _ _ _).mp h
  · exact Or.inl h

lemma subset_foldl_addCol : ∀ (l : List String) (cols : List String),
    cols ⊆ l.foldl (fun acc c => addCol acc (c ++ "_scaled")) cols := by
  intro l
  induction l with
  | nil => intro cols x hx; exact hx
  | cons y ys ih =>
    intro cols x hx
    exact ih (addCol cols (y ++ "_scaled")) (subset_addCol _ _ hx)

end SparkETL

namespace SparkETL

lemma subset_scaledSchema (cols : List String) : cols ⊆ scaledSchema cols :=
  fun _ hx =>
    subset_foldl_addCol _ _ (subset_addCol _ _ (subset_addCol _ _ hx))

lemma normSteps_refs_sub :
    ∀ r ∈ normSteps.foldr (fun s a => s.refs ++ a) [], r ∈ schemaErrorCols := by
  decide

lemma cnts_sub_schemaErrorCols : ∀ c ∈ cnts_cols, c ∈ schemaErrorCols := by
  decide

lemma checkTarget_error_spec (cols : List String) (m : String)
    (h : checkTarget cols = Except.error m) :
    "HadHeartAttack" ∉ cols ∧ m = "Target column 'HadHeartAttack' not found." := by
  unfold checkTarget at h
  split at h
  · exact absurd h (by simp)
  · rename_i hc
    cases h
    exact ⟨by simpa using hc, rfl⟩

lemma pipelineSchema_ok_parts (cols0 out : List String)
    (h : pipelineSchema cols0 = Except.ok out) :
    ∃ c1, runSteps cols0 normSteps = Except.ok c1 ∧
      checkCnts (regionStep c1) = Except.ok () ∧
      out = addCol (scaledSchema (regionStep c1)) "row_id" := by
  unfold pipelineSchema at h
  split at h
  · exact absurd h (by simp)
  · rename_i c1 h1
    split at h
    · exact absurd h (by simp)
    · rename_i u hchk
      split at h
      · exact absurd h (by simp)
      · exact ⟨c1, h1, by cases u; exact hchk, (Except.ok.inj h).symm⟩

lemma pipelineSchema_error_spec (cols0 : List String) (m : String)
    (h : pipelineSchema cols0 = Except.error m) :
    ∃ d, d ∈ schemaErrorCols ∧ d ∉ cols0 ∧ ∃ p q, m = p ++ d ++ q := by
  unfold pipelineSchema at h
  split at h
  · rename_i m1 h1
    cases h
    rcases runSteps_error_spec _ _ _ h1 with ⟨r, hm, hnr, hmem⟩
    exact ⟨r, normSteps_refs_sub r hmem, hnr, "cannot resolve ", "",
      by rw [hm]; simp⟩
  · rename_i c1 h1
    split at h
    · rename_i m1 hchk
      cases h
      rcases checkCnts_error_spec _ _ hchk with ⟨c, hc, hnc, hm⟩
      refine ⟨c, cnts_sub_schemaErrorCols c hc, ?_,
        "Expected numeric column ", " not found in input schema.", hm⟩
      intro hx
      exact hnc (regionStep_mem_of _ _
        (((runSteps_ok_mem _ _ _ h1) c).mpr (Or.inl hx)))
    · rename_i u hchk
      split at h
      · rename_i m1 htgt
        cases h
        rcases checkTarget_error_spec _ _ htgt with ⟨hno, hm⟩
        refine ⟨"HadHeartAttack", by decide, ?_,
          "Target column '", "' not found.", by rw [hm]; decide⟩
        intro hx
        exact hno (subset_scaledSchema _ (regionStep_mem_of _ _
          (((runSteps_ok_mem _ _ _ h1) _).mpr (Or.inl hx))))
      · exact absurd h (by simp)

lemma pipelineSchema_ok_required (cols0 out : List String)
    (h : pipelineSchema cols0 = Except.ok out) :
    ∀ c ∈ requiredInputCols, c ∈ cols0 := by
  rcases pipelineSchema_ok_parts _ _ h with ⟨c1, h1, hchk, -⟩
  have hc1 := runSteps_ok_mem normSteps cols0 c1 h1
  have hcnts := checkCnts_ok_mem _ hchk
  have hcont : ∀ c, c ∈ cnts_cols → c ∉ normSteps.map ColStep.name →
      c ≠ "Region" → c ∈ cols0 := by
    intro c hc hn hr
    rcases mem_of_regionStep _ _ (hcnts c hc) with hx | hx
    · rcases (hc1 c).mp hx with hx | hx
      · exact hx
      · exact absurd hx hn
    · exact absurd hx hr
  have href : ∀ (k : Nat) (s : ColStep),
      normSteps = normSteps.take k ++ s :: normSteps.drop (k + 1) →
      ∀ r ∈ s.refs, r ∉ (normSteps.take k).map ColStep.name → r ∈ cols0 := by
    intro k s hsplit r hr hn
    rcases runSteps_ok_refs (normSteps.take k) s (normSteps.drop (k + 1))
        cols0 c1 (by rw [← hsplit]; exact h1) r hr with hx | hx
    · exact hx
    · exact absurd hx hn
  intro c hc
  fin_cases hc
  · exact hcont _ (by decide) (by decide) (by decide)
  · exact hcont _ (by decide) (by decide) (by decide)
  · exact hcont _ (by decide) (by decide) (by decide)
  · exact hcont _ (by decide) (by decide) (by decide)
  · exact hcont _ (by decide) (by decide) (by decide)
  · exact hcont _ (by decide) (by decide) (by decide)
  · exact href 22 ⟨"GeneralHealth", ["GeneralHealth"]⟩ (by decide) _
      (by decide) (by decide)
  · exact href 23 ⟨"RemovedTeeth", ["RemovedTeeth"]⟩ (by decide) _
      (by decide) (by decide)
  · exact href 24 ⟨"AgeCategory", ["AgeCategory"]⟩ (by decide) _
      (by decide) (by decide)
  · exact href 0 ⟨"HadHeartAttack", ["HadHeartAttack"]⟩ (by decide) _
      (by decide) (by decide)

end SparkETL

/-- C5: a run on a dataset missing a required input column (a raw scaler
input or the target label) fails; every failing run writes no artifact and
prints nothing, and its error message names a missing required column
(`m = p ++ d ++ q` for a required column `d` absent from the input); a
successful run prints exactly the three output paths.  The three `*_ord`
scaler inputs are derived during normalization from `SmokerStatus` and
`ECigaretteUsage`, so the input-level requirement covers the nine raw
scaler columns and `HadHeartAttack`. -/
theorem schema_error_abort_c5 :
    (∀ (cols : List String) (outdir : String) (wcsv : Bool) (c : String),
      c ∈ requiredInputCols → c ∉ cols →
      ∃ m, (runMain cols outdir wcsv).outcome = Except.error m) ∧
    (∀ (cols : List String) (outdir : String) (wcsv : Bool) (m : String),
      (runMain cols outdir wcsv).outcome = Except.error m →
      (runMain cols outdir wcsv).written = [] ∧
      (runMain cols outdir wcsv).printed = [] ∧
      ∃ d, d ∈ schemaErrorCols ∧ d ∉ cols ∧ ∃ p q, m = p ++ d ++ q) ∧
    (∀ (cols : List String) (outdir : String) (wcsv : Bool),
      (runMain cols outdir wcsv).outcome = Except.ok () →
      (runMain cols outdir wcsv).printed =
        [outdir ++ "/heart_2022_clean.parquet",
         outdir ++ "/train_df0.1.parquet",
         outdir ++ "/test_df0.1.parquet"]) := by
  refine ⟨?_, ?_, ?_⟩
  · intro cols outdir wcsv c hc hnc
    cases h : pipelineSchema cols with
    | error m => exact ⟨m, by simp [runMain, h]⟩
    | ok out => exact absurd (pipelineSchema_ok_required _ _ h c hc) hnc
  · intro cols outdir wcsv m hm
    cases h : pipelineSchema cols with
    | error m0 =>
      have hr : runMain cols outdir wcsv = ⟨[], [], Except.error m0⟩ := by
        simp [runMain, h]
      rw [hr] at hm
      have hm0 : m0 = m := Except.error.inj hm
      subst hm0
      exact ⟨by rw [hr], by rw [hr], pipelineSchema_error_spec _ _ h⟩
    | ok out =>
      have hok : (runMain cols outdir wcsv).outcome = Except.ok () := by
        simp [runMain, h]
      rw [hm] at hok
      exact absurd hok (by simp)
  · intro cols outdir wcsv hok
    cases h : pipelineSchema cols with
    | error m0 =>
      have herr : (runMain cols outdir wcsv).outcome = Except.error m0 := by
        simp [runMain, h]
      rw [hok] at herr
      exact absurd herr (by simp)
    | ok out => simp [runMain, h]

/-- C5 witness: on the full input schema with `BMI` removed the run
aborts — nothing is written — with the message naming `BMI`. -/
theorem schema_error_abort_c5_witness :
    (runMain (fullInput.filter (fun c => !(c == "BMI"))) "out" false).written = [] :=
  (schema_error_abort_c5.2.1 (fullInput.filter (fun c => !(c == "BMI"))) "out" false
    "Expected numeric column BMI not found in input schema." (by rfl)).1

/-- C10: on every successful run, artifacts are written and every written
artifact (clean, train, test, and the CSV mirrors when requested) contains
the `row_id` column and contains neither `cnts_vec` nor
`cnts_vec_scaled`. -/
theorem artifact_columns_c10 :
    ∀ (cols : List String) (outdir : String) (wcsv : Bool),
    (runMain cols outdir wcsv).outcome = Except.ok () →
    (runMain cols outdir wcsv).written ≠ [] ∧
    ∀ p ∈ (runMain cols outdir wcsv).written,
      "row_id" ∈ p.2 ∧ "cnts_vec" ∉ p.2 ∧ "cnts_vec_scaled" ∉ p.2 := by
  intro cols outdir wcsv hok
  cases h : pipelineSchema cols with
  | error m0 =>
    have herr : (runMain cols outdir wcsv).outcome = Except.error m0 := by
      simp [runMain, h]
    rw [hok] at herr
    exact absurd herr (by simp)
  | ok out =>
    rcases pipelineSchema_ok_parts _ _ h with ⟨c1, -, -, hout⟩
    have hrow : "row_id" ∈ dropVecs out := by
      refine List.mem_filter.mpr ⟨?_, by decide⟩
      rw [hout]
      exact (mem_addCol _ _ _).mpr (Or.inr rfl)
    have hv1 : "cnts_vec" ∉ dropVecs out := by
      intro hx
      have hpred := (List.mem_filter.mp hx).2
      simp at hpred
    have hv2 : "cnts_vec_scaled" ∉ dropVecs out := by
      intro hx
      have hpred := (List.mem_filter.mp hx).2
      simp at hpred
    constructor
    · cases wcsv <;> simp [runMain, h]
    · intro p hp
      cases wcsv
      · simp [runMain, h] at hp
        rcases hp with rfl | rfl | rfl <;> exact ⟨hrow, hv1, hv2⟩
      · simp [runMain, h] at hp
        rcases hp with rfl | rfl | rfl | rfl | rfl | rfl <;> exact ⟨hrow, hv1, hv2⟩

/-- C10 witness: a successful run on the full input schema writes a
nonempty artifact list. -/
theorem artifact_columns_c10_witness :
    (runMain fullInput "out" false).written ≠ [] :=
  (artifact_columns_c10 fullInput "out" false (by rfl)).1
